import Mathlib

/-!
Verification of the MCP3208 channel-read routine (`readAdc` in
`MCP3208_demo.py`).

The script's only non-trivial logic is `readAdc`: validate the channel,
build a 3-byte SPI command frame, perform one full-duplex exchange via
`spi.xfer2`, and decode the 12-bit sample from the 3-byte response.

Modelling choices:
* Byte values and bit-packing are modelled on `Nat`; the Python integers
  involved are non-negative once the channel has passed the range check
  (the only negative value in the routine is the `-1` sentinel, which is
  returned, never bit-manipulated).
* The channel argument is an `Int`, since the code explicitly tests
  `channel < 0`.
* The SPI transport (`spi.xfer2`) is modelled as an explicit parameter: a
  stateful, fallible exchange function `σ → List Nat → Except ε (List Nat × σ)`.
  A Python exception raised by `xfer2` corresponds to the `Except.error`
  branch; since `readAdc` has no try/except, the error propagates unchanged.
* `readAdc` additionally returns the number of transport invocations it
  performed, so that "zero transport calls" / "no retry" claims are statable.
-/

/-- Start bit for communication (`START_BIT = 0x10`, line 69). -/
def START_BIT : Nat := 0x10

/-- Single-ended read of AN0 (`CONFIG_SINGLE_ENDED_AN0_P_GND_N = 0x08`, line 82). -/
def CONFIG_SINGLE_ENDED_AN0_P_GND_N : Nat := 0x08

/-- The read-command configuration byte built at lines 124-126:
`config = (START_BIT | CONFIG_SINGLE_ENDED_AN0_P_GND_N | channel)`. -/
def config (channel : Nat) : Nat :=
  START_BIT ||| CONFIG_SINGLE_ENDED_AN0_P_GND_N ||| channel

/-- The 3-byte command frame built at lines 130-132:
`sendBytes = [(config>>2) & 0x07, (config<<6) & 0xC0, 0]`. -/
def sendBytes (channel : Nat) : List Nat :=
  [(config channel >>> 2) &&& 0x07,
   (config channel <<< 6) &&& 0xC0,
   0]

/-- The decode step at line 139 on the two bytes it reads:
`value = ((rcvBytes[1] & 0x0f) << 8) | rcvBytes[2]`. -/
def decodeValue (r1 r2 : Nat) : Nat :=
  ((r1 &&& 0x0f) <<< 8) ||| r2

/-- Line 139 applied to the received 3-byte frame; indexing `rcvBytes[1]`
and `rcvBytes[2]` on the (always 3-byte) SPI response. -/
def decodeFrame (rcvBytes : List Nat) : Nat :=
  decodeValue (rcvBytes.getD 1 0) (rcvBytes.getD 2 0)

/-- The sentinel returned at line 101 for an out-of-range channel. -/
def invalidChannelSentinel : Int := -1

/-- `readAdc` (lines 98-142), with the SPI transport passed explicitly.

`xfer2` is the transport's exchange primitive (stateful and fallible);
`s` is the transport state it is invoked on.  The result pairs the
outcome of the call (`-1` sentinel or decoded value, together with the
transport state afterwards; or the transport's error, unchanged) with the
number of transport invocations performed. -/
def readAdc {σ ε : Type} (xfer2 : σ → List Nat → Except ε (List Nat × σ))
    (s : σ) (channel : Int) : Except ε (Int × σ) × Nat :=
  -- sanity check the channel specified (lines 100-101)
  if channel > 7 ∨ channel < 0 then
    (.ok (invalidChannelSentinel, s), 0)
  else
    -- build read command and send it (lines 124-136)
    match xfer2 s (sendBytes channel.toNat) with
    | .error e => (.error e, 1)
    | .ok (rcvBytes, s') =>
      -- combine 4 high bits with 8 low bits (lines 139-142)
      (.ok ((decodeFrame rcvBytes : Int), s'), 1)

/-! ## Claim theorems -/

/-- C1: for every channel `c` with `0 ≤ c ≤ 7`, the configuration value is
`0x18 ||| c` (start bit `0x10` OR single-ended selector `0x08` OR the
channel), and the 3-byte command frame equals
`[((0x18 ||| c) >>> 2) &&& 0x07, ((0x18 ||| c) <<< 6) &&& 0xC0, 0x00]`. -/
theorem sendBytes_eq_formula (c : Nat) (hc : c ≤ 7) :
    config c = 0x18 ||| c ∧
    sendBytes c =
      [((0x18 ||| c) >>> 2) &&& 0x07, ((0x18 ||| c) <<< 6) &&& 0xC0, 0x00] := by
  revert c
  decide

theorem sendBytes_eq_formula_witness :
    (5 : Nat) ≤ 7 ∧
    (config 5 = 0x18 ||| 5 ∧
     sendBytes 5 =
       [((0x18 ||| 5) >>> 2) &&& 0x07, ((0x18 ||| 5) <<< 6) &&& 0xC0, 0x00]) :=
  ⟨by decide, sendBytes_eq_formula 5 (by decide)⟩

/-- C2: for every 3-byte response frame `[r0, r1, r2]`, the decoded sample is
`((r1 &&& 0x0F) <<< 8) ||| r2`; in particular `[0x00, 0x0A, 0xFF]` decodes
to 2815, `[0x00, 0x00, 0x00]` to 0, and `[0x00, 0x0F, 0xFF]` to 4095. -/
theorem decodeFrame_formula_and_examples :
    (∀ r0 r1 r2 : Nat, decodeFrame [r0, r1, r2] = ((r1 &&& 0x0F) <<< 8) ||| r2) ∧
    decodeFrame [0x00, 0x0A, 0xFF] = 2815 ∧
    decodeFrame [0x00, 0x00, 0x00] = 0 ∧
    decodeFrame [0x00, 0x0F, 0xFF] = 4095 :=
  ⟨fun _ _ _ => rfl, by decide, by decide, by decide⟩

/-- C3: for every channel outside `0..7`, `readAdc` fails with the
invalid-channel result (the `-1` sentinel, the code's `InvalidChannel`
signal) and performs zero transport calls: the transport state is returned
untouched and the exchange count is 0, so no bytes are sent on the bus. -/
theorem readAdc_invalid_channel_no_transport {σ ε : Type}
    (xfer2 : σ → List Nat → Except ε (List Nat × σ)) (s : σ)
    (c : Int) (h : c > 7 ∨ c < 0) :
    readAdc xfer2 s c = (.ok (invalidChannelSentinel, s), 0) := by
  simp [readAdc, h]

theorem readAdc_invalid_channel_no_transport_witness :
    ((8 : Int) > 7 ∨ (8 : Int) < 0) ∧
    readAdc (fun (s : Unit) (_ : List Nat) =>
        (Except.ok ([0, 0, 0], s) : Except Unit (List Nat × Unit))) () 8 =
      (.ok (invalidChannelSentinel, ()), 0) :=
  ⟨Or.inl (by decide),
   readAdc_invalid_channel_no_transport _ () 8 (Or.inl (by decide))⟩

/-- C4: for every 3-byte response frame, the decoded value lies in
`[0, 4095]`: only the low 4 bits of response byte 1 and the 8 bits of
response byte 2 contribute. -/
theorem decodeFrame_le_4095 (r0 r1 r2 : Nat)
    (h0 : r0 ≤ 255) (h1 : r1 ≤ 255) (h2 : r2 ≤ 255) :
    decodeFrame [r0, r1, r2] ≤ 4095 := by
  have h1' : r1 &&& 0x0f < 2 ^ 4 := Nat.lt_succ_of_le Nat.and_le_right
  have h2' : r2 < 2 ^ 8 := Nat.lt_succ_of_le h2
  exact Nat.lt_succ_iff.mp
    (by simpa [decodeFrame, decodeValue] using Nat.append_lt h2' h1')

theorem decodeFrame_le_4095_witness :
    (0 : Nat) ≤ 255 ∧ (0xAB : Nat) ≤ 255 ∧ (0xFF : Nat) ≤ 255 ∧
    decodeFrame [0, 0xAB, 0xFF] ≤ 4095 :=
  ⟨by decide, by decide, by decide,
   decodeFrame_le_4095 0 0xAB 0xFF (by decide) (by decide) (by decide)⟩

/-- C5: for channel 0 the command frame is `[0x06, 0x00, 0x00]`; for
channel 7 the configuration value is `0x1F` and the command frame is
`[0x07, 0xC0, 0x00]`. -/
theorem sendBytes_channel0_channel7 :
    sendBytes 0 = [0x06, 0x00, 0x00] ∧
    config 7 = 0x1F ∧
    sendBytes 7 = [0x07, 0xC0, 0x00] := by
  decide

/-- C6: for every valid channel `c` (`0 ≤ c ≤ 7`), one call to `readAdc`
performs exactly one transport exchange, and the returned value depends
only on the channel (through the frame `sendBytes c.toNat`) and that one
exchange's response, which is decoded by `decodeFrame`; the sampler keeps
no state of its own beyond the transport's. -/
theorem readAdc_single_exchange {σ ε : Type}
    (xfer2 : σ → List Nat → Except ε (List Nat × σ)) (s : σ)
    (c : Int) (h0 : 0 ≤ c) (h7 : c ≤ 7) :
    (readAdc xfer2 s c).2 = 1 ∧
    ∀ rcv s', xfer2 s (sendBytes c.toNat) = .ok (rcv, s') →
      (readAdc xfer2 s c).1 = .ok ((decodeFrame rcv : Int), s') := by
  have hneg : ¬(c > 7 ∨ c < 0) := by omega
  constructor
  · unfold readAdc
    rw [if_neg hneg]
    cases h : xfer2 s (sendBytes c.toNat) with
    | error e => simp
    | ok p => cases p with | mk rcv s' => simp
  · intro rcv s' hx
    unfold readAdc
    rw [if_neg hneg, hx]

theorem readAdc_single_exchange_witness :
    ((0 : Int) ≤ 3 ∧ (3 : Int) ≤ 7) ∧
    (readAdc (fun (s : Unit) (_ : List Nat) =>
        (Except.ok ([0, 10, 255], s) : Except Unit (List Nat × Unit))) () 3).2 = 1 ∧
    (readAdc (fun (s : Unit) (_ : List Nat) =>
        (Except.ok ([0, 10, 255], s) : Except Unit (List Nat × Unit))) () 3).1 =
      .ok ((decodeFrame [0, 10, 255] : Int), ()) :=
  ⟨⟨by decide, by decide⟩,
   (readAdc_single_exchange _ () 3 (by decide) (by decide)).1,
   (readAdc_single_exchange _ () 3 (by decide) (by decide)).2 [0, 10, 255] () rfl⟩

/-- C7: for every valid channel, if the single transport exchange fails,
`readAdc` returns exactly that transport error, unwrapped and unmodified,
after exactly one transport call (so no retry is performed). -/
theorem readAdc_transport_error_propagates {σ ε : Type}
    (xfer2 : σ → List Nat → Except ε (List Nat × σ)) (s : σ)
    (c : Int) (e : ε) (h0 : 0 ≤ c) (h7 : c ≤ 7)
    (hx : xfer2 s (sendBytes c.toNat) = .error e) :
    readAdc xfer2 s c = (.error e, 1) := by
  have hneg : ¬(c > 7 ∨ c < 0) := by omega
  unfold readAdc
  rw [if_neg hneg, hx]

theorem readAdc_transport_error_propagates_witness :
    (0 : Int) ≤ 2 ∧ (2 : Int) ≤ 7 ∧
    readAdc (fun (_ : Unit) (_ : List Nat) =>
        (Except.error 42 : Except Nat (List Nat × Unit))) () 2 =
      (.error 42, 1) :=
  ⟨by decide, by decide,
   readAdc_transport_error_propagates _ () 2 42 (by decide) (by decide) rfl⟩

/-- C8: on an out-of-range channel `readAdc` returns the sentinel `-1`,
which is negative and hence outside the sample range `[0, 4095]`; every
decoded sample from a 3-byte response is in `[0, 4095]` and so differs
from the sentinel, making the invalid-channel result distinguishable from
every successful sample value. -/
theorem readAdc_sentinel_distinguishable {σ ε : Type}
    (xfer2 : σ → List Nat → Except ε (List Nat × σ)) (s : σ)
    (c : Int) (r0 r1 r2 : Nat)
    (hc : c > 7 ∨ c < 0) (h1 : r1 ≤ 255) (h2 : r2 ≤ 255) :
    (readAdc xfer2 s c).1 = .ok (invalidChannelSentinel, s) ∧
    invalidChannelSentinel < 0 ∧
    (0 ≤ (decodeFrame [r0, r1, r2] : Int) ∧ (decodeFrame [r0, r1, r2] : Int) ≤ 4095) ∧
    (decodeFrame [r0, r1, r2] : Int) ≠ invalidChannelSentinel := by
  refine ⟨by simp [readAdc, hc], by decide, ⟨by positivity, ?_⟩, ?_⟩
  · have h1' : r1 &&& 0x0f < 2 ^ 4 := Nat.lt_succ_of_le Nat.and_le_right
    have h2' : r2 < 2 ^ 8 := Nat.lt_succ_of_le h2
    have hb : decodeFrame [r0, r1, r2] ≤ 4095 :=
      Nat.lt_succ_iff.mp (by simpa [decodeFrame, decodeValue] using Nat.append_lt h2' h1')
    exact_mod_cast hb
  · intro hcon
    have hge : (0 : Int) ≤ (decodeFrame [r0, r1, r2] : Int) := by positivity
    rw [hcon] at hge
    exact absurd hge (by decide)

theorem readAdc_sentinel_distinguishable_witness :
    ((-1 : Int) > 7 ∨ (-1 : Int) < 0) ∧ (0xFF : Nat) ≤ 255 ∧ (0xFF : Nat) ≤ 255 ∧
    ((readAdc (fun (s : Unit) (_ : List Nat) =>
         (Except.ok ([0, 0, 0], s) : Except Unit (List Nat × Unit))) () (-1)).1 =
       .ok (invalidChannelSentinel, ()) ∧
     invalidChannelSentinel < 0 ∧
     (0 ≤ (decodeFrame [7, 0xFF, 0xFF] : Int) ∧
      (decodeFrame [7, 0xFF, 0xFF] : Int) ≤ 4095) ∧
     (decodeFrame [7, 0xFF, 0xFF] : Int) ≠ invalidChannelSentinel) :=
  ⟨Or.inr (by decide), by decide, by decide,
   readAdc_sentinel_distinguishable _ () (-1) 7 0xFF 0xFF
     (Or.inr (by decide)) (by decide) (by decide)⟩

/-- C9: the command encoding is injective on valid channels: distinct
channels in `0..7` produce distinct 3-byte frames, and the channel is
recoverable as bit 0 of byte 0 concatenated with bits 7-6 of byte 1. -/
theorem sendBytes_injective (c1 : Nat) (h1 : c1 < 8) (c2 : Nat)
    (h2 : c2 < 8) (hne : c1 ≠ c2) :
    sendBytes c1 ≠ sendBytes c2 ∧
    (((sendBytes c1).getD 0 0 &&& 0x01) <<< 2) |||
      ((sendBytes c1).getD 1 0 >>> 6) = c1 := by
  revert c1 c2
  decide

theorem sendBytes_injective_witness :
    (3 : Nat) < 8 ∧ (5 : Nat) < 8 ∧ (3 : Nat) ≠ 5 ∧
    (sendBytes 3 ≠ sendBytes 5 ∧
     (((sendBytes 3).getD 0 0 &&& 0x01) <<< 2) |||
       ((sendBytes 3).getD 1 0 >>> 6) = 3) :=
  ⟨by decide, by decide, by decide,
   sendBytes_injective 3 (by decide) 5 (by decide) (by decide)⟩

/-- C10: the decoded value is independent of response byte 0 and of the
high 4 bits of response byte 1: frames agreeing on the low 4 bits of
byte 1 and on byte 2 decode to the same value. -/
theorem decodeFrame_ignores_high_bits (r0 r0h r1 r1h r2 : Nat)
    (h : r1 &&& 0x0F = r1h &&& 0x0F) :
    decodeFrame [r0, r1, r2] = decodeFrame [r0h, r1h, r2] := by
  simp [decodeFrame, decodeValue, h]

theorem decodeFrame_ignores_high_bits_witness :
    (0xFA : Nat) &&& 0x0F = (0x0A : Nat) &&& 0x0F ∧
    decodeFrame [1, 0xFA, 2] = decodeFrame [3, 0x0A, 2] :=
  ⟨by decide, decodeFrame_ignores_high_bits 1 3 0xFA 0x0A 2 (by decide)⟩
